import Mathlib

/-!
Verification of the `mk` launcher (src/mk.rs).

The program resolves a Python virtual-environment path for the current
directory, using an append-only cache file plus a two-tool fallback chain
(`uv`, then `poetry`), and finally launches `{venv}/bin/python make.py`
with the venv's `bin` directory prepended to `PATH`.

Shallow embedding conventions:
* Rust strings are modelled as `List Char` (`Str`); `strL` turns a Lean
  string literal into one.
* Filesystem and subprocess effects are captured in a `World` record:
  the cache file's lines (or `none` when `File::open` fails), the
  `Path::exists` predicate, the observed results of the `uv` and `poetry`
  subprocesses (`none` models a spawn failure), and whether opening /
  writing the cache for append succeeds.
* A Rust panic (`expect`, `unwrap`) and `process::exit(1)` are modelled by
  the `MkError` side of an `Except`; `MkError.exitCode` records the
  process exit status each produces (a panic exits 101, `exit(1)` exits 1),
  all of them non-zero.
* `Char.isWhitespace` stands in for Rust's `char::is_whitespace`
  (identical on the ASCII whitespace that cache records can contain).
-/

/-- Rust `String` / `&str`, modelled as a list of characters. -/
abbrev Str := List Char

/-- Convert a Lean string literal to the `List Char` model. -/
def strL (s : String) : Str := s.data

/-- Rust `str::starts_with` on the character-list model. -/
def starts_with : Str → Str → Bool
  | _, [] => true
  | [], _ :: _ => false
  | c :: cs, p :: ps => c == p && starts_with cs ps

/-- Accumulator loop of `split_whitespace`: `cur` holds the current token
reversed; whitespace flushes it. -/
def splitWSGo : List Char → List Char → List (List Char)
  | cur, [] => if cur = [] then [] else [cur.reverse]
  | cur, c :: cs =>
    if c.isWhitespace then
      if cur = [] then splitWSGo [] cs else cur.reverse :: splitWSGo [] cs
    else splitWSGo (c :: cur) cs

/-- Rust `str::split_whitespace().collect::<Vec<_>>()`: the maximal
whitespace-free nonempty tokens of the string, in order. -/
def splitWS (cs : Str) : List Str := splitWSGo [] cs

/-- Rust `str::trim`: strip whitespace from both ends. -/
def trimL (cs : Str) : Str :=
  ((cs.dropWhile Char.isWhitespace).reverse.dropWhile Char.isWhitespace).reverse

/-- src/mk.rs line 88: a cache line matches the directory when it starts
with the directory followed by one space (`line.starts_with(&cur_dir_with_space)`). -/
def lineMatches (cur_dir line : Str) : Bool :=
  starts_with line (cur_dir ++ [' '])

/-- src/mk.rs lines 90-91: `line.split_whitespace().collect()`, then
`v.get(1).unwrap().trim()`. `none` models the `unwrap` panic when the
matched line has no second whitespace-separated token. -/
def parseMatchedLine (line : Str) : Option Str :=
  match (splitWS line).get? 1 with
  | none => none
  | some tok => some (trimL tok)

/-- src/mk.rs lines 83-93: the scan loop over the cache lines. `venv_path`
starts as the empty string and each matching line overwrites it, so the
last match wins; `none` models the `unwrap` panic on a malformed matching
line. -/
def scanLines (cur_dir : Str) (venv_path : Str) : List Str → Option Str
  | [] => some venv_path
  | line :: rest =>
    if lineMatches cur_dir line then
      match parseMatchedLine line with
      | none => none
      | some p => scanLines cur_dir p rest
    else scanLines cur_dir venv_path rest

/-- The whole cache scan, started from the empty `venv_path` of line 77. -/
def scanCache (cur_dir : Str) (lines : List Str) : Option Str :=
  scanLines cur_dir [] lines

/-- src/mk.rs line 123: `format!("{} {}", cur_dir, venv_path)`, the record
appended to the cache. -/
def mkRecord (cur_dir venv_path : Str) : Str :=
  cur_dir ++ [' '] ++ venv_path

/-- Fatal terminations of the process: Rust panics (`expect`/`unwrap`,
process exit status 101) and explicit `process::exit(1)` calls. -/
inductive MkError where
  | panicUnwrap : MkError
  | panicPoetrySpawn : MkError
  | exitPoetryFailed : Nat → MkError
  | exitPoetryEmpty : MkError
  | exitCacheOpen : MkError
deriving DecidableEq

/-- The process exit status each fatal termination produces. -/
def MkError.exitCode : MkError → Nat
  | .panicUnwrap => 101
  | .panicPoetrySpawn => 101
  | .exitPoetryFailed _ => 1
  | .exitPoetryEmpty => 1
  | .exitCacheOpen => 1

deriving instance DecidableEq for Except

/-- The observable environment of one invocation: cache-file contents
(`none` when `File::open` fails), the filesystem `exists` test, the results
of spawning `uv` and `poetry` (`none` = spawn failure, otherwise exit
status and stdout), and whether the cache can be opened / written for
append. -/
structure World where
  cacheLines : Option (List Str)
  pathExists : Str → Bool
  uvResult : Option (Nat × Str)
  poetryResult : Option (Nat × Str)
  cacheOpenOk : Bool
  writeOk : Bool

/-- src/mk.rs lines 18-44, `get_venv_path_from_uv`: spawn failure, a
non-zero exit status, or whitespace-only stdout all yield `None`;
otherwise the trimmed stdout. -/
def get_venv_path_from_uv (w : World) : Option Str :=
  match w.uvResult with
  | none => none
  | some (status, stdout) =>
    if status ≠ 0 then none
    else
      let venv_path := trimL stdout
      if venv_path = [] then none else some venv_path

/-- src/mk.rs lines 46-72, `get_venv_path_from_poetry`: spawn failure
panics (`expect`), a non-zero exit status exits 1 with the status in the
message, empty trimmed stdout exits 1; otherwise the trimmed stdout. -/
def get_venv_path_from_poetry (w : World) : Except MkError Str :=
  match w.poetryResult with
  | none => Except.error MkError.panicPoetrySpawn
  | some (status, stdout) =>
    if status ≠ 0 then Except.error (MkError.exitPoetryFailed status)
    else
      let venv_path := trimL stdout
      if venv_path = [] then Except.error MkError.exitPoetryEmpty
      else Except.ok venv_path

/-- src/mk.rs lines 75-104: open the cache (failure to open for reading is
silently a miss), scan it, then lines 95-103 clear the candidate when
`{venv_path}/bin/python` does not exist. `Except.ok []` is the Rust empty
string, i.e. a miss. -/
def cachedCandidate (w : World) (cur_dir : Str) : Except MkError Str :=
  match w.cacheLines with
  | none => Except.ok []
  | some lines =>
    match scanCache cur_dir lines with
    | none => Except.error MkError.panicUnwrap
    | some p =>
      if p = [] then Except.ok p
      else if w.pathExists (p ++ strL "/bin/python") then Except.ok p
      else Except.ok []

/-- src/mk.rs lines 108-114: try `uv` first; only when it yields `None`
fall back to `poetry`. -/
def fallbackChain (w : World) : Except MkError Str :=
  match get_venv_path_from_uv w with
  | some path => Except.ok path
  | none => get_venv_path_from_poetry w

/-- Result of one `get_venv_path` call together with its observable
effects: which tools were invoked and which record (if any) was appended
to the cache file. -/
structure ResolveOutcome where
  result : Except MkError Str
  uvInvoked : Bool
  poetryInvoked : Bool
  appended : Option Str

/-- src/mk.rs lines 107-135, the miss path: run the fallback chain, then
open the cache for append (create if missing). Failure to open exits 1
(lines 128-134); a failed `writeln!` is only reported on stderr (lines
125-127) and the function still returns the discovered path. -/
def missOutcome (w : World) (cur_dir : Str) : ResolveOutcome :=
  let poInv := (get_venv_path_from_uv w).isNone
  match fallbackChain w with
  | Except.error e => ⟨Except.error e, true, poInv, none⟩
  | Except.ok venv_path =>
    if w.cacheOpenOk then
      ⟨Except.ok venv_path, true, poInv,
        if w.writeOk then some (mkRecord cur_dir venv_path) else none⟩
    else ⟨Except.error MkError.exitCacheOpen, true, poInv, none⟩

/-- src/mk.rs lines 74-138, `get_venv_path`: a live cached candidate is
returned as is, with no tool invoked and nothing written; otherwise the
miss path runs. -/
def get_venv_path (w : World) (cur_dir : Str) : ResolveOutcome :=
  match cachedCandidate w cur_dir with
  | Except.error e => ⟨Except.error e, false, false, none⟩
  | Except.ok p =>
    if p = [] then missOutcome w cur_dir
    else ⟨Except.ok p, false, false, none⟩

/-- Cache-file contents after one `get_venv_path` call: appends go at the
end of the existing lines; a first append creates the file. -/
def cacheAfterResolve (w : World) (cur_dir : Str) : Option (List Str) :=
  match w.cacheLines, (get_venv_path w cur_dir).appended with
  | some lines, some l => some (lines ++ [l])
  | some lines, none => some lines
  | none, some l => some [l]
  | none, none => none

/-- src/mk.rs lines 163-165: `PATH` for the child is
`{venv_path}/bin` ++ ":" ++ the inherited `PATH`. -/
def updated_proc_env_path (venv_path proc_env_path : Str) : Str :=
  (venv_path ++ strL "/bin") ++ [':'] ++ proc_env_path

/-- src/mk.rs lines 169-175, the tail of `main`: `.status()` waits for the
child; `.expect` panics when spawning fails (process exit 101). On a
successful spawn the returned `ExitStatus` of the child is dropped and
`main` returns normally, so the launcher's own exit status is 0 whatever
the child's status was. The argument is `none` for a spawn failure,
`some n` for a child that terminated with status `n`. -/
def launcherExitCode : Option Nat → Nat
  | none => 101
  | some _ => 0

example : splitWS (strL "/proj /venv") = [strL "/proj", strL "/venv"] := by decide
example : scanCache (strL "/proj") [mkRecord (strL "/proj") (strL "/venv")]
    = some (strL "/venv") := by decide
example : scanCache (strL "/proj") [strL "/proj "] = none := by decide
example : lineMatches (strL "/proj") (strL "/proj2 /venv") = false := by decide

/-! ### Helper lemmas about the cache scan and the resolve paths -/

theorem starts_with_append (a b : Str) : starts_with (a ++ b) a = true := by
  induction a with
  | nil => simp [starts_with]
  | cons c cs ih => simp [starts_with, ih]

theorem scanLines_append (d acc : Str) (xs ys : List Str) :
    scanLines d acc (xs ++ ys) =
      match scanLines d acc xs with
      | none => none
      | some a => scanLines d a ys := by
  induction xs generalizing acc with
  | nil => simp [scanLines]
  | cons l rest ih =>
    by_cases hm : lineMatches d l
    · cases hp : parseMatchedLine l with
      | none => simp [scanLines, hm, hp]
      | some p => simp [scanLines, hm, hp, ih]
    · simp [scanLines, hm, ih]

theorem scanLines_nomatch (d : Str) (ys : List Str)
    (h : ∀ l ∈ ys, lineMatches d l = false) (acc : Str) :
    scanLines d acc ys = some acc := by
  induction ys with
  | nil => rfl
  | cons l rest ih =>
    have h1 : lineMatches d l = false := h l (List.mem_cons_self l rest)
    have h2 : ∀ x ∈ rest, lineMatches d x = false :=
      fun x hx => h x (List.mem_cons_of_mem l hx)
    simp [scanLines, h1, ih h2]

theorem cachedCandidate_hit (w : World) (d : Str) (lines : List Str) (p : Str)
    (hl : w.cacheLines = some lines) (hscan : scanCache d lines = some p)
    (hne : p ≠ []) (hlive : w.pathExists (p ++ strL "/bin/python") = true) :
    cachedCandidate w d = Except.ok p := by
  simp [cachedCandidate, hl, hscan, hne, hlive]

theorem get_venv_path_hit (w : World) (d : Str) (lines : List Str) (p : Str)
    (hl : w.cacheLines = some lines) (hscan : scanCache d lines = some p)
    (hne : p ≠ []) (hlive : w.pathExists (p ++ strL "/bin/python") = true) :
    get_venv_path w d = ⟨Except.ok p, false, false, none⟩ := by
  have hc := cachedCandidate_hit w d lines p hl hscan hne hlive
  simp [get_venv_path, hc, hne]

theorem get_venv_path_miss (w : World) (d : Str)
    (hmiss : cachedCandidate w d = Except.ok []) :
    get_venv_path w d = missOutcome w d := by
  simp [get_venv_path, hmiss]

/-! ### Claim theorems -/

/-- C1: the claim says a child exiting with status N makes the launcher
exit with status N. The code (src/mk.rs lines 169-175) waits for the child
via `.status()` but drops the returned `ExitStatus` and lets `main` return
normally, so a successfully spawned child that exits 2 leaves the launcher
exiting 0, not 2. This theorem evaluates the modelled tail of `main` at
that failing input. -/
theorem c1_child_status_dropped :
    launcherExitCode (some 2) = 0 ∧ launcherExitCode (some 2) ≠ 2 ∧
    launcherExitCode none = 101 := by decide

/-- Concrete world for C2: the fallback tool succeeds, the cache opens for
append, but the `writeln!` fails. -/
def wC2 : World :=
  { cacheLines := none
    pathExists := fun _ => true
    uvResult := some (0, strL "/venv")
    poetryResult := none
    cacheOpenOk := true
    writeOk := false }

/-- C2 counterexample: the claim says a failed write during append is
fatal (the process terminates with non-zero status). In `wC2` the
`writeln!` fails (`writeOk = false`), yet `get_venv_path` still returns
the discovered path successfully (src/mk.rs lines 125-127 only print to
stderr and fall through), so the operation does not fail. -/
theorem c2_counterexample :
    wC2.writeOk = false ∧
    (get_venv_path wC2 (strL "/proj")).result = Except.ok (strL "/venv") ∧
    (get_venv_path wC2 (strL "/proj")).appended = none := by decide

/-- C2 amended: failure to open or create the cache file for append is
fatal (`process::exit(1)`), but a failed `writeln!` on an opened cache
file is only reported on stderr and absorbed: resolution still returns
the discovered path and nothing is appended. -/
theorem c2_amended_open_fatal_write_absorbed (w : World) (d q : Str)
    (hmiss : cachedCandidate w d = Except.ok [])
    (huv : get_venv_path_from_uv w = some q) :
    (w.cacheOpenOk = false →
      (get_venv_path w d).result = Except.error MkError.exitCacheOpen ∧
      MkError.exitCode MkError.exitCacheOpen ≠ 0) ∧
    (w.cacheOpenOk = true →
      (get_venv_path w d).result = Except.ok q ∧
      (w.writeOk = false → (get_venv_path w d).appended = none)) := by
  have hm := get_venv_path_miss w d hmiss
  have hfb : fallbackChain w = Except.ok q := by simp [fallbackChain, huv]
  constructor
  · intro hco
    constructor
    · rw [hm]; simp [missOutcome, hfb, hco]
    · simp [MkError.exitCode]
  · intro hco
    constructor
    · rw [hm]; simp [missOutcome, hfb, hco]
    · intro hw; rw [hm]; simp [missOutcome, hfb, hco, hw]

/-- Witness for the amended C2 at the concrete world `wC2`. -/
theorem c2_amended_witness :
    (wC2.cacheOpenOk = false →
      (get_venv_path wC2 (strL "/proj")).result = Except.error MkError.exitCacheOpen ∧
      MkError.exitCode MkError.exitCacheOpen ≠ 0) ∧
    (wC2.cacheOpenOk = true →
      (get_venv_path wC2 (strL "/proj")).result = Except.ok (strL "/venv") ∧
      (wC2.writeOk = false → (get_venv_path wC2 (strL "/proj")).appended = none)) :=
  c2_amended_open_fatal_write_absorbed wC2 (strL "/proj") (strL "/venv")
    (by decide) (by decide)

/-- C8: a cache line matches a queried directory exactly when it starts
with the directory followed by a single space; and concretely, the record
written for directory "/proj" with stored value "x y" also matches a query
for the distinct directory "/proj x" (of which "/proj" is a literal
prefix, the stored value supplying the space), making the scan return the
bogus path "x". -/
theorem c8_match_rule_cross_match :
    (∀ d line, lineMatches d line = starts_with line (d ++ [' '])) ∧
    (strL "/proj x" ≠ strL "/proj" ∧
     starts_with (strL "/proj x") (strL "/proj") = true ∧
     lineMatches (strL "/proj x") (mkRecord (strL "/proj") (strL "x y")) = true ∧
     scanCache (strL "/proj x") [mkRecord (strL "/proj") (strL "x y")]
       = some (strL "x")) :=
  ⟨fun _ _ => rfl, by decide⟩

/-- C9: the child's `PATH` is exactly the venv's `bin` directory, then the
separator `:`, then the inherited `PATH`; hence the `bin` directory is a
strict prefix of the child's `PATH`. -/
theorem c9_path_prefix (venv_path proc_env_path : Str) :
    updated_proc_env_path venv_path proc_env_path
      = (venv_path ++ strL "/bin") ++ [':'] ++ proc_env_path ∧
    starts_with (updated_proc_env_path venv_path proc_env_path)
      (venv_path ++ strL "/bin") = true ∧
    updated_proc_env_path venv_path proc_env_path ≠ venv_path ++ strL "/bin" := by
  refine ⟨rfl, ?_, ?_⟩
  · have h := starts_with_append (venv_path ++ strL "/bin")
      ([':'] ++ proc_env_path)
    simpa [updated_proc_env_path, List.append_assoc] using h
  · intro h
    have hlen := congrArg List.length h
    simp [updated_proc_env_path] at hlen

/-- Concrete world for C10: the cache holds the single line "/proj "
(directory, one space, nothing after). -/
def wC10 : World :=
  { cacheLines := some [strL "/proj "]
    pathExists := fun _ => false
    uvResult := none
    poetryResult := none
    cacheOpenOk := true
    writeOk := true }

/-- C10: the scan is not total: the line "/proj " matches the query
"/proj" (it starts with "/proj "), but `split_whitespace` yields only one
token, so `v.get(1).unwrap()` panics (modelled as `none` /
`MkError.panicUnwrap`, process exit 101) instead of treating the line as a
miss. -/
theorem c10_scan_panics_on_truncated_line :
    lineMatches (strL "/proj") (strL "/proj ") = true ∧
    scanCache (strL "/proj") [strL "/proj "] = none ∧
    (get_venv_path wC10 (strL "/proj")).result
      = Except.error MkError.panicUnwrap ∧
    MkError.exitCode MkError.panicUnwrap ≠ 0 := by decide

/-- C3: with the cache file split as `l1 ++ r :: l2` where `r` is the last
line matching the queried directory (no line of `l2` matches) and parses
to path `p`, the scan returns `p` — the last matching record wins — and,
when `p` is live, `get_venv_path` returns it. -/
theorem c3_last_match_wins (w : World) (d : Str) (l1 l2 : List Str)
    (r p a : Str)
    (hl : w.cacheLines = some (l1 ++ r :: l2))
    (h1 : scanCache d l1 = some a)
    (hm : lineMatches d r = true)
    (hp : parseMatchedLine r = some p)
    (h2 : ∀ l ∈ l2, lineMatches d l = false)
    (hne : p ≠ [])
    (hlive : w.pathExists (p ++ strL "/bin/python") = true) :
    scanCache d (l1 ++ r :: l2) = some p ∧
    (get_venv_path w d).result = Except.ok p := by
  have hscan : scanCache d (l1 ++ r :: l2) = some p := by
    unfold scanCache at h1 ⊢
    rw [scanLines_append d [] l1 (r :: l2), h1]
    simp [scanLines, hm, hp, scanLines_nomatch d l2 h2]
  refine ⟨hscan, ?_⟩
  rw [get_venv_path_hit w d (l1 ++ r :: l2) p hl hscan hne hlive]

/-- Concrete world for the C3 witness: two records for "/proj" (old then
new) followed by a record for another directory; only the new path is
live. -/
def wC3 : World :=
  { cacheLines := some [mkRecord (strL "/proj") (strL "/old"),
      mkRecord (strL "/proj") (strL "/new"),
      mkRecord (strL "/other") (strL "/x")]
    pathExists := fun s => s == strL "/new/bin/python"
    uvResult := none
    poetryResult := none
    cacheOpenOk := true
    writeOk := true }

/-- Witness for C3 at the concrete cache of `wC3`. -/
theorem c3_witness :
    scanCache (strL "/proj")
      ([mkRecord (strL "/proj") (strL "/old")] ++
        mkRecord (strL "/proj") (strL "/new") ::
          [mkRecord (strL "/other") (strL "/x")]) = some (strL "/new") ∧
    (get_venv_path wC3 (strL "/proj")).result = Except.ok (strL "/new") :=
  c3_last_match_wins wC3 (strL "/proj")
    [mkRecord (strL "/proj") (strL "/old")]
    [mkRecord (strL "/other") (strL "/x")]
    (mkRecord (strL "/proj") (strL "/new"))
    (strL "/new") (strL "/old")
    (by decide) (by decide) (by decide) (by decide) (by decide) (by decide)
    (by decide)

/-- C4: a cached record that passes liveness validation is returned as is:
no tool is invoked, nothing is appended, and the cache file is unchanged. -/
theorem c4_cache_hit (w : World) (d : Str) (lines : List Str) (p : Str)
    (hl : w.cacheLines = some lines)
    (hscan : scanCache d lines = some p)
    (hne : p ≠ [])
    (hlive : w.pathExists (p ++ strL "/bin/python") = true) :
    get_venv_path w d = ⟨Except.ok p, false, false, none⟩ ∧
    cacheAfterResolve w d = some lines := by
  have h := get_venv_path_hit w d lines p hl hscan hne hlive
  refine ⟨h, ?_⟩
  simp [cacheAfterResolve, h, hl]

/-- Concrete world for the C4 witness: one live cached record. -/
def wC4 : World :=
  { cacheLines := some [mkRecord (strL "/proj") (strL "/venv")]
    pathExists := fun _ => true
    uvResult := none
    poetryResult := none
    cacheOpenOk := true
    writeOk := true }

/-- Witness for C4 at the concrete cache of `wC4`. -/
theorem c4_witness :
    get_venv_path wC4 (strL "/proj")
      = ⟨Except.ok (strL "/venv"), false, false, none⟩ ∧
    cacheAfterResolve wC4 (strL "/proj")
      = some [mkRecord (strL "/proj") (strL "/venv")] :=
  c4_cache_hit wC4 (strL "/proj") [mkRecord (strL "/proj") (strL "/venv")]
    (strL "/venv") (by decide) (by decide) (by decide) (by decide)

/-- C5: a cached record whose `bin/python` does not exist is a miss: the
fallback chain runs (the primary tool is invoked), its result is appended
as a new record at the end of the cache, and every old line — the stale
record included — is still present. -/
theorem c5_stale_record_appends (w : World) (d : Str) (lines : List Str)
    (p q : Str)
    (hl : w.cacheLines = some lines)
    (hscan : scanCache d lines = some p)
    (hne : p ≠ [])
    (hstale : w.pathExists (p ++ strL "/bin/python") = false)
    (hchain : fallbackChain w = Except.ok q)
    (hopen : w.cacheOpenOk = true)
    (hwrite : w.writeOk = true) :
    (get_venv_path w d).result = Except.ok q ∧
    (get_venv_path w d).uvInvoked = true ∧
    (get_venv_path w d).appended = some (mkRecord d q) ∧
    cacheAfterResolve w d = some (lines ++ [mkRecord d q]) ∧
    ∀ l ∈ lines, l ∈ lines ++ [mkRecord d q] := by
  have hmiss : cachedCandidate w d = Except.ok [] := by
    simp [cachedCandidate, hl, hscan, hne, hstale]
  have hm := get_venv_path_miss w d hmiss
  have houtcome : get_venv_path w d =
      ⟨Except.ok q, true, (get_venv_path_from_uv w).isNone,
        some (mkRecord d q)⟩ := by
    rw [hm]; simp [missOutcome, hchain, hopen, hwrite]
  refine ⟨by rw [houtcome], by rw [houtcome], by rw [houtcome], ?_, ?_⟩
  · simp [cacheAfterResolve, houtcome, hl]
  · intro l hlmem
    exact List.mem_append_left _ hlmem

/-- Concrete world for the C5 witness: one stale record for "/proj"; the
primary tool discovers "/new", whose `bin/python` exists. -/
def wC5 : World :=
  { cacheLines := some [mkRecord (strL "/proj") (strL "/old")]
    pathExists := fun s => s == strL "/new/bin/python"
    uvResult := some (0, strL "/new")
    poetryResult := none
    cacheOpenOk := true
    writeOk := true }

/-- Witness for C5 at the concrete world `wC5`. -/
theorem c5_witness :
    (get_venv_path wC5 (strL "/proj")).result = Except.ok (strL "/new") ∧
    (get_venv_path wC5 (strL "/proj")).uvInvoked = true ∧
    (get_venv_path wC5 (strL "/proj")).appended
      = some (mkRecord (strL "/proj") (strL "/new")) ∧
    cacheAfterResolve wC5 (strL "/proj")
      = some ([mkRecord (strL "/proj") (strL "/old")] ++
          [mkRecord (strL "/proj") (strL "/new")]) ∧
    ∀ l ∈ [mkRecord (strL "/proj") (strL "/old")],
      l ∈ [mkRecord (strL "/proj") (strL "/old")] ++
        [mkRecord (strL "/proj") (strL "/new")] :=
  c5_stale_record_appends wC5 (strL "/proj")
    [mkRecord (strL "/proj") (strL "/old")] (strL "/old") (strL "/new")
    (by decide) (by decide) (by decide) (by decide) (by decide) (by decide)
    (by decide)

/-- C6: on the miss path, when the primary tool yields a path the
secondary tool is never invoked and the primary result is used; when the
primary tool yields nothing the secondary tool is invoked; and the primary
tool yields nothing exactly when it failed to spawn, exited non-zero, or
produced (whitespace-only) empty output — all silently absorbed. -/
theorem c6_fallback_order_absorption (w : World) (d : Str)
    (hmiss : cachedCandidate w d = Except.ok []) :
    (∀ q, get_venv_path_from_uv w = some q →
      (get_venv_path w d).poetryInvoked = false ∧
      (w.cacheOpenOk = true → (get_venv_path w d).result = Except.ok q)) ∧
    (get_venv_path_from_uv w = none →
      (get_venv_path w d).poetryInvoked = true) ∧
    (get_venv_path_from_uv w = none ↔
      (w.uvResult = none ∨
        ∃ s out, w.uvResult = some (s, out) ∧ (s ≠ 0 ∨ trimL out = []))) := by
  have hm := get_venv_path_miss w d hmiss
  refine ⟨?_, ?_, ?_⟩
  · intro q huv
    have hfb : fallbackChain w = Except.ok q := by simp [fallbackChain, huv]
    constructor
    · rw [hm]
      cases hco : w.cacheOpenOk <;> simp [missOutcome, hfb, huv, hco]
    · intro hco
      rw [hm]; simp [missOutcome, hfb, hco]
  · intro huv
    have hfb : fallbackChain w = get_venv_path_from_poetry w := by
      simp [fallbackChain, huv]
    rw [hm]
    cases hpo : get_venv_path_from_poetry w <;>
      cases hco : w.cacheOpenOk <;>
        simp [missOutcome, hfb, hpo, huv, hco]
  · cases hu : w.uvResult with
    | none => simp [get_venv_path_from_uv, hu]
    | some pr =>
      obtain ⟨s, out⟩ := pr
      constructor
      · intro h
        by_cases hs : s = 0
        · by_cases ht : trimL out = []
          · exact Or.inr ⟨s, out, rfl, Or.inr ht⟩
          · simp [get_venv_path_from_uv, hu, hs, ht] at h
        · exact Or.inr ⟨s, out, rfl, Or.inl hs⟩
      · intro h
        rcases h with h | ⟨s2, out2, heq, hcond⟩
        · exact absurd h (by simp)
        · have hpair := Option.some.inj heq
          have hs2 : s = s2 := congrArg Prod.fst hpair
          have hout2 : out = out2 := congrArg Prod.snd hpair
          rcases hcond with hzs | hze
          · rw [← hs2] at hzs
            simp [get_venv_path_from_uv, hu, hzs]
          · rw [← hout2] at hze
            by_cases hs : s = 0
            · simp [get_venv_path_from_uv, hu, hs, hze]
            · simp [get_venv_path_from_uv, hu, hs]

/-- Concrete world for the C6 witness: no cache file, primary tool
succeeds with "/venv". -/
def wC6 : World :=
  { cacheLines := none
    pathExists := fun _ => true
    uvResult := some (0, strL "/venv")
    poetryResult := none
    cacheOpenOk := true
    writeOk := true }

/-- Witness for C6 at the concrete world `wC6`. -/
theorem c6_witness :
    (∀ q, get_venv_path_from_uv wC6 = some q →
      (get_venv_path wC6 (strL "/proj")).poetryInvoked = false ∧
      (wC6.cacheOpenOk = true →
        (get_venv_path wC6 (strL "/proj")).result = Except.ok q)) ∧
    (get_venv_path_from_uv wC6 = none →
      (get_venv_path wC6 (strL "/proj")).poetryInvoked = true) ∧
    (get_venv_path_from_uv wC6 = none ↔
      (wC6.uvResult = none ∨
        ∃ s out, wC6.uvResult = some (s, out) ∧ (s ≠ 0 ∨ trimL out = []))) :=
  c6_fallback_order_absorption wC6 (strL "/proj") (by decide)

/-- C7: when the primary tool yields nothing and the secondary tool fails
(spawn failure, non-zero exit, or empty output — any `MkError` of
`get_venv_path_from_poetry`), `get_venv_path` terminates with that error,
whose process exit status is non-zero, nothing is appended, and the cache
file is unchanged. -/
theorem c7_terminal_failure_atomic (w : World) (d : Str)
    (hmiss : cachedCandidate w d = Except.ok [])
    (huv : get_venv_path_from_uv w = none)
    (e : MkError)
    (hpo : get_venv_path_from_poetry w = Except.error e) :
    (get_venv_path w d).result = Except.error e ∧
    MkError.exitCode e ≠ 0 ∧
    (get_venv_path w d).appended = none ∧
    cacheAfterResolve w d = w.cacheLines := by
  have hm := get_venv_path_miss w d hmiss
  have hfb : fallbackChain w = Except.error e := by
    simp [fallbackChain, huv, hpo]
  have houtcome : get_venv_path w d = ⟨Except.error e, true, true, none⟩ := by
    rw [hm]; simp [missOutcome, hfb, huv]
  refine ⟨by rw [houtcome], ?_, by rw [houtcome], ?_⟩
  · cases e <;> simp [MkError.exitCode]
  · cases hcl : w.cacheLines <;> simp [cacheAfterResolve, houtcome, hcl]

/-- Concrete world for the C7 witness: empty cache file, primary tool not
installed (spawn failure), secondary tool exits with status 1. -/
def wC7 : World :=
  { cacheLines := some []
    pathExists := fun _ => true
    uvResult := none
    poetryResult := some (1, strL "")
    cacheOpenOk := true
    writeOk := true }

/-- Witness for C7 at the concrete world `wC7`. -/
theorem c7_witness :
    (get_venv_path wC7 (strL "/proj")).result
      = Except.error (MkError.exitPoetryFailed 1) ∧
    MkError.exitCode (MkError.exitPoetryFailed 1) ≠ 0 ∧
    (get_venv_path wC7 (strL "/proj")).appended = none ∧
    cacheAfterResolve wC7 (strL "/proj") = wC7.cacheLines :=
  c7_terminal_failure_atomic wC7 (strL "/proj") (by decide) (by decide)
    (MkError.exitPoetryFailed 1) (by decide)
